import Mathlib

/-!
Shallow embedding of `src/your_program_is_terminated.py`.

The repository is a lifecycle-monitoring wrapper: a Python context manager
`termination_monitor` that installs SIGINT/SIGTERM handlers around a guarded
block, classifies how the block ended, and sends email notifications through
`SimpleEmailServer`.  The embedding models:

* configuration resolution (`termination_monitor.__init__`, Python `or`
  truthiness included) over an explicit environment record;
* the SMTP client `SimpleEmailServer` with its proxy parsing
  (`_parse_proxy` / `urllib.parse.urlparse` on `scheme://host[:port][/...]`
  forms) and `send`, which mutates process-wide socket state when a proxy is
  configured;
* `__enter__` / `__exit__` / `_handle_signal` / `_trigger_alert` as pure
  functions threading the process signal-disposition table and the global
  socket state, and emitting an ordered `Event` trace (console prints,
  signal-table writes, `Notifier.send` call sites, SMTP actions);
* the Python `with`-statement semantics (`termination_monitor.run`): enter,
  run the block, call `__exit__` with the exception info, propagate the
  exception unless `__exit__` returned `True`.

Nondeterministic ambient inputs (wall-clock timestamps, `socket.gethostname`,
the frames text of a traceback, and whether the SMTP transport succeeds) are
passed as parameters.
-/

namespace YPT

/-- String containment: `pat` occurs as a contiguous substring of `s`
(used to state the spec's "subject/body contains ..." properties). -/
abbrev containsStr (s pat : String) : Prop := pat.data <:+: s.data

/-- Appending strings concatenates their character data. -/
theorem string_data_append (s t : String) : (s ++ t).data = s.data ++ t.data := by
  cases s; cases t; rfl

/-- String append is associative (via `List.append_assoc` on the data). -/
theorem string_append_assoc (a b c : String) : a ++ b ++ c = a ++ (b ++ c) := by
  cases a; cases b; cases c
  show String.mk _ = String.mk _
  simp [String.append, List.append_assoc]

/-- A string obtained by wrapping `mid` between `pre` and `post` contains `mid`. -/
theorem containsStr_of_eq_append {s : String} (pre mid post : String)
    (h : s = pre ++ mid ++ post) : containsStr s mid := by
  subst h
  show mid.data <:+: (pre ++ mid ++ post).data
  rw [string_data_append, string_data_append]
  exact List.infix_append _ _ _

/-- Containment is transitive. -/
theorem containsStr_trans {s t p : String} (h₁ : containsStr t p)
    (h₂ : containsStr s t) : containsStr s p :=
  List.IsInfix.trans h₁ h₂

/-! ## Python truthiness and `or` (used by the configuration code) -/

/-- Truthiness of an `Optional[str]` value: `None` and `""` are falsy. -/
def pyTruthy : Option String → Bool
  | none => false
  | some s => !(s = "")

/-- Python `a or b` on `Optional[str]` operands: `a` when truthy, else `b`. -/
def pyOr (a b : Option String) : Option String :=
  if pyTruthy a then a else b

/-! ## Proxy-URL parsing (`urllib.parse.urlparse` + `_parse_proxy`) -/

/-- If `pre` is a prefix of `l`, the remainder after dropping it. -/
def dropPrefixO : List Char → List Char → Option (List Char)
  | [], l => some l
  | _ :: _, [] => none
  | p :: ps, x :: xs => if p = x then dropPrefixO ps xs else none

/-- Splits `l` at the first occurrence of `sep`, returning the parts before
and after it, or `none` when `sep` does not occur. -/
def splitFirst (sep : List Char) : List Char → Option (List Char × List Char)
  | [] => (dropPrefixO sep []).map (fun rest => ([], rest))
  | x :: xs =>
    match dropPrefixO sep (x :: xs) with
    | some rest => some ([], rest)
    | none =>
      match splitFirst sep xs with
      | some (a, b) => some (x :: a, b)
      | none => none

/-- Decimal-digit parse of a character list (`none` when empty or non-digit). -/
def natOfDigits : List Char → Option Nat
  | [] => none
  | l => l.foldl (fun acc c =>
      acc.bind (fun n => if c.isDigit then some (n * 10 + (c.toNat - 48)) else none))
      (some 0)

/-- Result of `urllib.parse.urlparse` restricted to the fields `_parse_proxy`
reads: `scheme`, `hostname` (lowercased), `port`. -/
structure ParsedUrl where
  scheme : String
  hostname : Option String
  port : Option Nat
deriving DecidableEq

/-- Model of `urllib.parse.urlparse` on the URL shapes a proxy URL takes,
`scheme://host[:port][/path]`.  A URL without `://` has no netloc, hence
`hostname = None` and `port = None` (the scheme field is unused by
`_parse_proxy` beyond the http/https test, so it is left empty there). -/
def urlparseModel (url : String) : ParsedUrl :=
  match splitFirst ("://".data) url.data with
  | none => ⟨"", none, none⟩
  | some (sch, rest) =>
    let netloc := match splitFirst ['/'] rest with
                  | some (a, _) => a
                  | none => rest
    match splitFirst [':'] netloc with
    | some (h, p) =>
      ⟨⟨sch⟩, if h = [] then none else some ⟨h.map Char.toLower⟩, natOfDigits p⟩
    | none =>
      ⟨⟨sch⟩, if netloc = [] then none else some ⟨netloc.map Char.toLower⟩, none⟩

/-- Proxy description built by `SimpleEmailServer._parse_proxy`
(the Python dict `{'type', 'host', 'port'}`; `type` is spelled `ptype`). -/
structure ProxyInfo where
  ptype : String
  host : Option String
  port : Nat
deriving DecidableEq

/-- Embedding of `SimpleEmailServer._parse_proxy` (lines 31-38): classify the
scheme as `http` vs `socks5`, keep the hostname, default the port to 8080
(Python `parsed.port or 8080`, so port 0 also falls back). -/
def parse_proxy (proxy_url : String) : ProxyInfo :=
  let parsed := urlparseModel proxy_url
  { ptype := if parsed.scheme = "http" ∨ parsed.scheme = "https" then "http" else "socks5"
    host := parsed.hostname
    port := match parsed.port with
            | some n => if n = 0 then 8080 else n
            | none => 8080 }

/-! ## Events, global socket state, transport outcome -/

/-- Process-wide socket globals mutated by `SimpleEmailServer.send`:
`socks.setdefaultproxy(...)` and the `socket.socket = socks.socksocket`
substitution. -/
structure SocketState where
  defaultProxy : Option (String × Option String × Nat)
  socketIsSocks : Bool
deriving DecidableEq

/-- The two signals the monitor touches. -/
inductive Sig where
  | sigint
  | sigterm
deriving DecidableEq

/-- A signal disposition (entry of the process-wide signal table): default
action, ignore, some Python handler, or the monitor's `_handle_signal`. -/
inductive Disposition where
  | sigDfl
  | sigIgn
  | handlerFn (id : Nat)
  | monitorHandler
deriving DecidableEq

/-- Process-wide signal-disposition table for the two guarded signals. -/
structure SignalState where
  sigint : Disposition
  sigterm : Disposition
deriving DecidableEq

/-- One observable action of the program, in execution order. -/
inductive Event where
  | log (msg : String)
  | installSignal (sig : Sig) (d : Disposition)
  | restoreSignal (sig : Sig) (d : Disposition)
  | notifierSend (recipient subject body : String)
  | setDefaultProxy (ptype : String) (host : Option String) (port : Nat)
  | setSocketFactory
  | smtpConnect (host : String) (port : Nat) (ssl : Bool)
  | starttls
  | smtpLogin (user pw : String)
  | smtpSendmail (sender recipient subject body : String)
  | smtpQuit
deriving DecidableEq

/-- Whether the transport work inside `send`'s `try` block (connect, STARTTLS,
login, sendmail, quit) succeeds or raises some `Exception` with message
`err`.  This is the oracle for the network environment. -/
inductive TransportOutcome where
  | ok
  | fail (err : String)
deriving DecidableEq

/-- The `Notifier.send` call sites of a trace, with their arguments. -/
def sendEvents (tr : List Event) : List (String × String × String) :=
  tr.filterMap (fun e =>
    match e with
    | .notifierSend r s b => some (r, s, b)
    | _ => none)

/-! ## SimpleEmailServer -/

/-- State of a `SimpleEmailServer` instance (lines 18-29). -/
structure SimpleEmailServer where
  smtp_host : String
  smtp_port : Nat
  sender_email : String
  sender_password : String
  http_proxy : Option String
  https_proxy : Option String
  proxy_info : Option ProxyInfo
deriving DecidableEq

/-- Embedding of `SimpleEmailServer.__init__` (lines 18-29): store the
configuration and parse the first truthy proxy URL (http preferred). -/
def SimpleEmailServer.make (smtp_host : String) (smtp_port : Nat)
    (sender_email sender_password : String)
    ( http_proxy https_proxy : Option String) : SimpleEmailServer :=
  { smtp_host, smtp_port, sender_email, sender_password, http_proxy, https_proxy
    proxy_info :=
      if pyTruthy http_proxy then some (parse_proxy (http_proxy.getD ""))
      else if pyTruthy https_proxy then some (parse_proxy (https_proxy.getD ""))
      else none }

/-- Embedding of `SimpleEmailServer.send` (lines 40-73).  Returns the boolean
result, the updated socket globals, and the event trace.  The MIME message is
represented by its `(sender, recipient, subject, body)` fields.  When the
transport oracle is `fail`, the `except Exception` branch logs and returns
`False`; proxy substitution performed before the failure is not undone. -/
def SimpleEmailServer.send (s : SimpleEmailServer) (recipient subject body : String)
    (st : SocketState) (t : TransportOutcome) : Bool × SocketState × List Event :=
  let connectLog := Event.log
    ("[TERMINATION_MONITOR] Connecting to SMTP server " ++ s.smtp_host ++ ":"
      ++ toString s.smtp_port ++ "...")
  let proxyStep : SocketState × List Event :=
    match s.proxy_info with
    | some pi =>
      let ptype := if pi.ptype = "http" then "PROXY_TYPE_HTTP" else "PROXY_TYPE_SOCKS5"
      ({ defaultProxy := some (ptype, pi.host, pi.port), socketIsSocks := true },
       [Event.setDefaultProxy ptype pi.host pi.port, Event.setSocketFactory])
    | none => (st, [])
  match t with
  | .fail err =>
    (false, proxyStep.1,
      connectLog :: proxyStep.2
        ++ [Event.log ("[TERMINATION_MONITOR] Failed to send email. Error: " ++ err)])
  | .ok =>
    let connEvs :=
      if s.smtp_port = 465 then [Event.smtpConnect s.smtp_host s.smtp_port true]
      else [Event.smtpConnect s.smtp_host s.smtp_port false, Event.starttls]
    (true, proxyStep.1,
      connectLog :: proxyStep.2 ++ connEvs
        ++ [Event.smtpLogin s.sender_email s.sender_password,
            Event.smtpSendmail s.sender_email recipient subject body,
            Event.smtpQuit,
            Event.log "[TERMINATION_MONITOR] Email notification sent successfully."])

/-! ## termination_monitor -/

/-- Environment variables read by `termination_monitor.__init__`.  The port
variable is modelled by its numeric value (Python applies `int(...)` to it;
a non-numeric value would raise at construction and is outside this model). -/
structure EnvConfig where
  recipientEmail : Option String
  smtpHost : Option String
  smtpPort : Option Nat
  senderEmail : Option String
  senderPassword : Option String
  httpProxy : Option String
  httpsProxy : Option String
deriving DecidableEq

/-- State of a `termination_monitor` instance after `__init__`
(lines 80-103). -/
structure termination_monitor where
  recipient_email : Option String
  smtp_host : String
  smtp_port : Nat
  sender_email : Option String
  sender_password : Option String
  http_proxy : Option String
  https_proxy : Option String
  mailer : Option SimpleEmailServer
  warned : Bool
  original_sigint : Option Disposition
  original_sigterm : Option Disposition
deriving DecidableEq

/-- Embedding of `termination_monitor.__init__` (lines 80-103): resolve each
setting as `explicit or env` with Python truthiness, default the host and
port, build the mailer when sender email, sender password and recipient are
all truthy, and otherwise print the one-time warning (`warned`). -/
def termination_monitor.make (recipient_email smtp_host : Option String)
    (smtp_port : Option Nat) (sender_email sender_password : Option String)
    (env : EnvConfig) : termination_monitor :=
  let r := pyOr recipient_email env.recipientEmail
  let h := match smtp_host with
           | some s => if s = "" then env.smtpHost.getD "smtp.gmail.com" else s
           | none => env.smtpHost.getD "smtp.gmail.com"
  let p := match smtp_port with
           | some n => if n = 0 then env.smtpPort.getD 587 else n
           | none => env.smtpPort.getD 587
  let se := pyOr sender_email env.senderEmail
  let pw := pyOr sender_password env.senderPassword
  let mailer :=
    if pyTruthy se && pyTruthy pw && pyTruthy r then
      some (SimpleEmailServer.make h p (se.getD "") (pw.getD "")
        env.httpProxy env.httpsProxy)
    else none
  { recipient_email := r
    smtp_host := h
    smtp_port := p
    sender_email := se
    sender_password := pw
    http_proxy := env.httpProxy
    https_proxy := env.httpsProxy
    mailer := mailer
    warned := mailer.isNone
    original_sigint := none
    original_sigterm := none }

/-- Result of `__enter__`: the updated monitor (saved dispositions), the new
signal table, the socket globals after the optional start email, and the
trace. -/
structure EnterResult where
  monitor : termination_monitor
  sigState : SignalState
  sockState : SocketState
  trace : List Event

/-- Embedding of `termination_monitor.__enter__` (lines 105-129): save the
prior dispositions, install `_handle_signal` for SIGTERM then SIGINT, and
send the start-up notification when a mailer is configured. -/
def termination_monitor.enter (m : termination_monitor) (st : SignalState)
    (startTime hostname : String) (sockSt : SocketState) (t : TransportOutcome) :
    EnterResult :=
  let m' := { m with original_sigterm := some st.sigterm
                     original_sigint := some st.sigint }
  let st' : SignalState := ⟨Disposition.monitorHandler, Disposition.monitorHandler⟩
  let baseTrace :=
    [Event.log ("[TERMINATION_MONITOR] Monitoring started at " ++ startTime ++ "..."),
     Event.installSignal .sigterm Disposition.monitorHandler,
     Event.installSignal .sigint Disposition.monitorHandler]
  match m.mailer with
  | none => { monitor := m', sigState := st', sockState := sockSt, trace := baseTrace }
  | some mailer =>
    let subject := "[INFO] Monitoring Activated: Your Program Started"
    let body :=
      "Program monitoring has started successfully.\n\n"
        ++ "Host Machine: " ++ hostname ++ "\n"
        ++ "Start Time: " ++ startTime ++ "\n"
        ++ "----------------------------------------\n"
        ++ "You will receive another email when the program terminates (success or failure).\n"
    let res := mailer.send (m.recipient_email.getD "") subject body sockSt t
    { monitor := m'
      sigState := st'
      sockState := res.2.1
      trace := baseTrace
        ++ [Event.log "[TERMINATION_MONITOR] Sending start-up notification...",
            Event.notifierSend (m.recipient_email.getD "") subject body]
        ++ res.2.2 }

/-- Exception information as `__exit__` receives it: the Python type name,
the argument message, and the formatted stack-frames text of the traceback. -/
structure ExcInfo where
  excType : String
  excMsg : String
  tbText : String
deriving DecidableEq

/-- Model of `"".join(traceback.format_exception(exc_type, exc_value, tb))`
for a single (non-chained) exception with a non-empty message. -/
def formatException (e : ExcInfo) : String :=
  "Traceback (most recent call last):\n" ++ e.tbText ++ e.excType ++ ": "
    ++ e.excMsg ++ "\n"

/-- The `signal.Signals(signum).name` of the two guarded signals. -/
def signalName : Sig → String
  | .sigint => "SIGINT"
  | .sigterm => "SIGTERM"

/-- Embedding of `termination_monitor._handle_signal` (lines 161-169): log the
signal and raise `SystemExit` (via `sys.exit`) carrying the signal's name, so
the unwind reaches `__exit__`.  `tbText` is the stack-frames text the
traceback will show for the raise point. -/
def termination_monitor.handle_signal (sig : Sig) (tbText : String) :
    Event × ExcInfo :=
  (Event.log ("\n[TERMINATION_MONITOR] Signal received: " ++ signalName sig),
   { excType := "SystemExit"
     excMsg := "Process terminated by signal " ++ signalName sig
     tbText := tbText })

/-- Embedding of `termination_monitor._trigger_alert` (lines 171-193): skip
when no mailer, otherwise build the subject and body and call
`Notifier.send` once (its boolean result is discarded by the source). -/
def termination_monitor.trigger_alert (m : termination_monitor)
    (status details time hostname : String) (sockSt : SocketState)
    (t : TransportOutcome) : SocketState × List Event :=
  match m.mailer with
  | none => (sockSt, [Event.log "[TERMINATION_MONITOR] No email configuration. Skipping alert."])
  | some mailer =>
    let subject := "[ALERT] Your Program is Terminated: " ++ status
    let body :=
      "Your program monitoring report:\n\n"
        ++ "Host Machine: " ++ hostname ++ "\n"
        ++ "Status: " ++ status ++ "\n"
        ++ "Time: " ++ time ++ "\n"
        ++ "----------------------------------------\n"
        ++ "Error Logs / Traceback:\n"
        ++ details ++ "\n"
        ++ "----------------------------------------\n"
        ++ "This is an automated message from Your_Program_is_Terminated library."
    let res := mailer.send (m.recipient_email.getD "") subject body sockSt t
    (res.2.1,
     Event.log "[TERMINATION_MONITOR] Preparing termination report..."
       :: Event.notifierSend (m.recipient_email.getD "") subject body
       :: res.2.2)

/-- Result of `__exit__`: the computed status and details, the value returned
to the interpreter (`suppress`, the source's `return False`), the restored
signal table, the socket globals, and the trace. -/
structure ExitResult where
  status : String
  error_details : String
  suppress : Bool
  sigState : SignalState
  sockState : SocketState
  trace : List Event

/-- Embedding of `termination_monitor.__exit__` (lines 131-159), called with
`none` on normal completion and `some e` when the block raised: restore the
saved dispositions (SIGTERM then SIGINT) first, log and classify the
exception (`KeyboardInterrupt` specially, by exact type), run
`_trigger_alert`, and return `False`.  The `getD .sigDfl` on the saved
dispositions is irrelevant after `__enter__`, which always stores `some`
(calling `__exit__` on a fresh instance would pass `None` to `signal.signal`
and raise, which is outside the guarded lifecycle this model covers). -/
def termination_monitor.exitStep (m : termination_monitor) (exc : Option ExcInfo)
    (endTime hostname : String) (sockSt : SocketState) (t : TransportOutcome) :
    ExitResult :=
  let restTerm := m.original_sigterm.getD Disposition.sigDfl
  let restInt := m.original_sigint.getD Disposition.sigDfl
  let excEvs : List Event :=
    match exc with
    | none => []
    | some e =>
      [Event.log ("\n[TERMINATION_MONITOR] Exception detected:\n" ++ formatException e)]
  let sd : String × String :=
    match exc with
    | none => ("Success", "None")
    | some e =>
      if e.excType = "KeyboardInterrupt" then
        ("Interrupted by User (Ctrl+C)", "User manually stopped the program.")
      else
        ("Crashed / Terminated", formatException e)
  let alert := m.trigger_alert sd.1 sd.2 endTime hostname sockSt t
  { status := sd.1
    error_details := sd.2
    suppress := false
    sigState := ⟨restInt, restTerm⟩
    sockState := alert.1
    trace := Event.restoreSignal .sigterm restTerm
      :: Event.restoreSignal .sigint restInt
      :: (excEvs ++ alert.2) }

/-- How the guarded block ends: normal completion or an exception (which,
for a signal arriving while armed, is the `SystemExit` that
`_handle_signal` raised). -/
inductive BlockResult where
  | normal
  | raises (e : ExcInfo)
deriving DecidableEq

/-- Result of one full `with termination_monitor(...)` execution. -/
structure RunResult where
  propagated : Option ExcInfo
  sigState : SignalState
  sockState : SocketState
  trace : List Event

/-- Python `with`-statement semantics around the monitor: `__enter__`, run
the block, `__exit__` with the exception info, and propagate the exception
unless `__exit__` returned a truthy value. -/
def termination_monitor.run (m : termination_monitor) (st : SignalState)
    (sockSt : SocketState) (block : BlockResult) (startTime endTime hostname : String)
    (tStart tEnd : TransportOutcome) : RunResult :=
  let er := m.enter st startTime hostname sockSt tStart
  let exc : Option ExcInfo :=
    match block with
    | .normal => none
    | .raises e => some e
  let xr := er.monitor.exitStep exc endTime hostname er.sockState tEnd
  { propagated := if xr.suppress then none else exc
    sigState := xr.sigState
    sockState := xr.sockState
    trace := er.trace ++ xr.trace }

/-! ## Trace bookkeeping lemmas -/

@[simp] theorem sendEvents_nil : sendEvents [] = [] := rfl

@[simp] theorem sendEvents_cons_log (msg : String) (tr : List Event) :
    sendEvents (Event.log msg :: tr) = sendEvents tr := rfl

@[simp] theorem sendEvents_cons_install (sig : Sig) (d : Disposition) (tr : List Event) :
    sendEvents (Event.installSignal sig d :: tr) = sendEvents tr := rfl

@[simp] theorem sendEvents_cons_restore (sig : Sig) (d : Disposition) (tr : List Event) :
    sendEvents (Event.restoreSignal sig d :: tr) = sendEvents tr := rfl

@[simp] theorem sendEvents_cons_notifierSend (r s b : String) (tr : List Event) :
    sendEvents (Event.notifierSend r s b :: tr) = (r, s, b) :: sendEvents tr := rfl

@[simp] theorem sendEvents_cons_setDefaultProxy (p : String) (h : Option String) (n : Nat)
    (tr : List Event) : sendEvents (Event.setDefaultProxy p h n :: tr) = sendEvents tr := rfl

@[simp] theorem sendEvents_cons_setSocketFactory (tr : List Event) :
    sendEvents (Event.setSocketFactory :: tr) = sendEvents tr := rfl

@[simp] theorem sendEvents_cons_smtpConnect (h : String) (p : Nat) (ssl : Bool)
    (tr : List Event) : sendEvents (Event.smtpConnect h p ssl :: tr) = sendEvents tr := rfl

@[simp] theorem sendEvents_cons_starttls (tr : List Event) :
    sendEvents (Event.starttls :: tr) = sendEvents tr := rfl

@[simp] theorem sendEvents_cons_smtpLogin (u p : String) (tr : List Event) :
    sendEvents (Event.smtpLogin u p :: tr) = sendEvents tr := rfl

@[simp] theorem sendEvents_cons_smtpSendmail (a b c d : String) (tr : List Event) :
    sendEvents (Event.smtpSendmail a b c d :: tr) = sendEvents tr := rfl

@[simp] theorem sendEvents_cons_smtpQuit (tr : List Event) :
    sendEvents (Event.smtpQuit :: tr) = sendEvents tr := rfl

@[simp] theorem sendEvents_append (a b : List Event) :
    sendEvents (a ++ b) = sendEvents a ++ sendEvents b :=
  List.filterMap_append ..

/-- The SMTP-level trace of `SimpleEmailServer.send` contains no
`Notifier.send` call sites (the call site is recorded by the caller). -/
@[simp] theorem sendEvents_smtp (s : SimpleEmailServer) (r subj b : String)
    (st : SocketState) (t : TransportOutcome) :
    sendEvents (s.send r subj b st t).2.2 = [] := by
  unfold SimpleEmailServer.send
  cases t <;> cases s.proxy_info <;>
    by_cases h465 : s.smtp_port = 465 <;>
      simp [h465]

/-- The monitor produced by `__enter__` is the input monitor with the prior
dispositions saved, on both the degraded and the configured branch. -/
theorem enter_monitor_eq (m : termination_monitor) (st : SignalState)
    (startTime hostname : String) (sockSt : SocketState) (t : TransportOutcome) :
    (m.enter st startTime hostname sockSt t).monitor
      = { m with original_sigterm := some st.sigterm
                 original_sigint := some st.sigint } := by
  unfold termination_monitor.enter
  cases m.mailer <;> rfl

/-- Every string contains itself. -/
theorem containsStr_self (pat : String) : containsStr pat pat :=
  ⟨[], [], by simp⟩

/-- Containment is preserved by prepending text. -/
theorem containsStr_append_left (pre : String) {s pat : String}
    (h : containsStr s pat) : containsStr (pre ++ s) pat := by
  obtain ⟨a, b, hab⟩ := h
  exact ⟨pre.data ++ a, b, by rw [string_data_append, ← hab]; simp [List.append_assoc]⟩

/-- Containment is preserved by appending text. -/
theorem containsStr_append_right (post : String) {s pat : String}
    (h : containsStr s pat) : containsStr (s ++ post) pat := by
  obtain ⟨a, b, hab⟩ := h
  exact ⟨a, b ++ post.data, by rw [string_data_append, ← hab]; simp [List.append_assoc]⟩

/-! ## Claims -/

/-- C1: every execution of the release step (`__exit__`) makes exactly one
`Notifier.send` call when the monitor is not degraded (a mailer is
configured) and zero when it is degraded, for every possible exception info
(`none` for Success, any raised exception otherwise) and every transport
outcome. -/
theorem claim1_exactly_one_notification_on_release
    (m : termination_monitor) (exc : Option ExcInfo) (endTime hostname : String)
    (sockSt : SocketState) (t : TransportOutcome) :
    (sendEvents (m.exitStep exc endTime hostname sockSt t).trace).length
      = if m.mailer.isSome then 1 else 0 := by
  unfold termination_monitor.exitStep termination_monitor.trigger_alert
  cases hm : m.mailer <;> cases exc <;> simp [hm]

/-- C2: for every exit path (normal completion or any exception, including a
signal-triggered `SystemExit`) and every transport outcome, `__exit__`
restores the signal dispositions saved at `__enter__` — the final signal
table equals the pre-acquisition table — and the two restorations are the
first two actions of the release trace, before any notification I/O. -/
theorem claim2_restore_before_notification
    (m : termination_monitor) (st : SignalState) (startTime endTime hostname : String)
    (sockSt : SocketState) (tStart tEnd : TransportOutcome) (exc : Option ExcInfo) :
    ((m.enter st startTime hostname sockSt tStart).monitor.exitStep exc endTime hostname
        (m.enter st startTime hostname sockSt tStart).sockState tEnd).sigState = st ∧
    ∃ rest,
      ((m.enter st startTime hostname sockSt tStart).monitor.exitStep exc endTime hostname
          (m.enter st startTime hostname sockSt tStart).sockState tEnd).trace
        = Event.restoreSignal .sigterm st.sigterm
          :: Event.restoreSignal .sigint st.sigint :: rest := by
  rw [enter_monitor_eq]
  exact ⟨rfl, _, rfl⟩

/-- C3: the guard re-surfaces the original outcome unchanged — a full
`with`-execution propagates nothing when the block completes normally, and
propagates exactly the original exception (same type and message) when the
block raised, whatever the configuration and transport outcomes. -/
theorem claim3_original_outcome_propagates
    (m : termination_monitor) (st : SignalState) (sockSt : SocketState)
    (block : BlockResult) (startTime endTime hostname : String)
    (tStart tEnd : TransportOutcome) :
    (m.run st sockSt block startTime endTime hostname tStart tEnd).propagated
      = match block with
        | .normal => none
        | .raises e => some e := by
  unfold termination_monitor.run
  cases block <;> rfl

/-- C4 counterexample: with the guard armed (handlers installed by
`__enter__`), a SIGINT delivered mid-block reaches `_handle_signal`, which
raises `SystemExit` — not `KeyboardInterrupt` — so `__exit__` classifies the
outcome with the generic "Crashed / Terminated" status, not the
UserInterrupt status "Interrupted by User (Ctrl+C)" the claim requires. -/
theorem claim4_counterexample :
    (((termination_monitor.make (some "r@x.com") none none (some "s@x.com") (some "pw")
            ⟨none, none, none, none, none, none, none⟩).enter
          ⟨Disposition.sigDfl, Disposition.sigDfl⟩ "T0" "host" ⟨none, false⟩ .ok).monitor.exitStep
        (some (termination_monitor.handle_signal .sigint "  frame\n").2)
        "T1" "host" ⟨none, false⟩ .ok).status = "Crashed / Terminated"
    ∧ "Crashed / Terminated" ≠ "Interrupted by User (Ctrl+C)" :=
  ⟨rfl, by decide⟩

/-- C4 (amended): when a termination signal (SIGINT or SIGTERM) arrives while
the guard is armed, `_handle_signal` converts it into a `SystemExit` carrying
the signal's name, which unwinds to `__exit__`; the outcome is then
classified with the generic "Crashed / Terminated" status for both signals
(the signal's name appearing only in the formatted exception details) — the
UserInterrupt classification is reserved for a literal `KeyboardInterrupt`
exception and is not produced by the handler. -/
theorem claim4_amended (sig : Sig) (tbText : String) (m : termination_monitor)
    (endTime hostname : String) (sockSt : SocketState) (t : TransportOutcome) :
    (termination_monitor.handle_signal sig tbText).2.excType = "SystemExit"
    ∧ containsStr (termination_monitor.handle_signal sig tbText).2.excMsg (signalName sig)
    ∧ (m.exitStep (some (termination_monitor.handle_signal sig tbText).2)
        endTime hostname sockSt t).status = "Crashed / Terminated"
    ∧ containsStr (m.exitStep (some (termination_monitor.handle_signal sig tbText).2)
        endTime hostname sockSt t).error_details (signalName sig) := by
  refine ⟨rfl, ?_, rfl, ?_⟩
  · exact containsStr_append_left "Process terminated by signal " (containsStr_self _)
  · show containsStr
      ("Traceback (most recent call last):\n" ++ tbText ++ "SystemExit" ++ ": "
        ++ ("Process terminated by signal " ++ signalName sig) ++ "\n") (signalName sig)
    exact containsStr_append_right "\n"
      (containsStr_append_left _
        (containsStr_append_left "Process terminated by signal " (containsStr_self _)))

/-- C5 counterexample: with an armed, non-degraded guard, a SIGTERM arriving
mid-block leads to exactly one `Notifier.send` call from the release step,
but its subject is the fixed string
"[ALERT] Your Program is Terminated: Crashed / Terminated", which does not
contain the signal's name "SIGTERM" as the claim requires. -/
theorem claim5_counterexample :
    ((sendEvents (((termination_monitor.make (some "r@x.com") none none (some "s@x.com")
              (some "pw") ⟨none, none, none, none, none, none, none⟩).enter
            ⟨Disposition.sigDfl, Disposition.sigDfl⟩ "T0" "host" ⟨none, false⟩ .ok).monitor.exitStep
          (some (termination_monitor.handle_signal .sigterm "  frame\n").2)
          "T1" "host" ⟨none, false⟩ .ok).trace).map (fun p => p.2.1)
        = ["[ALERT] Your Program is Terminated: Crashed / Terminated"])
    ∧ ¬ containsStr "[ALERT] Your Program is Terminated: Crashed / Terminated" "SIGTERM" :=
  ⟨rfl, by decide⟩

/-- C5 (amended): for every armed, non-degraded guard, when an external
termination signal (SIGTERM) arrives mid-block, `Notifier.send` is called
exactly once from the release step, with the signal's name contained in the
message BODY (via the formatted `SystemExit` traceback) while the subject is
the generic "[ALERT] Your Program is Terminated: Crashed / Terminated"; and
a process-level termination still occurs after release: the `SystemExit`
raised by the handler propagates out of the `with` block unchanged. -/
theorem claim5_amended (m : termination_monitor) (srv : SimpleEmailServer)
    (hm : m.mailer = some srv) (tbText startTime endTime hostname : String)
    (st : SignalState) (sockSt sockSt0 : SocketState) (t tS tE : TransportOutcome) :
    (∃ body,
      sendEvents (m.exitStep (some (termination_monitor.handle_signal .sigterm tbText).2)
          endTime hostname sockSt t).trace
        = [(m.recipient_email.getD "",
            "[ALERT] Your Program is Terminated: Crashed / Terminated", body)]
      ∧ containsStr body "SIGTERM")
    ∧ (m.run st sockSt0 (.raises (termination_monitor.handle_signal .sigterm tbText).2)
        startTime endTime hostname tS tE).propagated
      = some (termination_monitor.handle_signal .sigterm tbText).2
    ∧ (termination_monitor.handle_signal .sigterm tbText).2.excType = "SystemExit" := by
  refine ⟨⟨"Your program monitoring report:\n\n"
      ++ "Host Machine: " ++ hostname ++ "\n"
      ++ "Status: " ++ "Crashed / Terminated" ++ "\n"
      ++ "Time: " ++ endTime ++ "\n"
      ++ "----------------------------------------\n"
      ++ "Error Logs / Traceback:\n"
      ++ ("Traceback (most recent call last):\n" ++ tbText ++ "SystemExit" ++ ": "
          ++ ("Process terminated by signal " ++ "SIGTERM") ++ "\n") ++ "\n"
      ++ "----------------------------------------\n"
      ++ "This is an automated message from Your_Program_is_Terminated library.",
      ?_, ?_⟩, rfl, rfl⟩
  · unfold termination_monitor.exitStep termination_monitor.trigger_alert
    simp [hm, termination_monitor.handle_signal, formatException, signalName]
  · refine containsStr_append_right _ (containsStr_append_right _
      (containsStr_append_right _ (containsStr_append_left _ ?_)))
    exact containsStr_append_right "\n"
      (containsStr_append_left _
        (containsStr_append_left "Process terminated by signal " (containsStr_self _)))

/-- C5 witness: the amended statement instantiated at a concretely configured
monitor receiving SIGTERM, with the non-degraded hypothesis discharged by
evaluation. -/
theorem claim5_witness :
    (∃ body,
      sendEvents ((termination_monitor.make (some "r@x.com") none none (some "s@x.com")
            (some "pw") ⟨none, none, none, none, none, none, none⟩).exitStep
          (some (termination_monitor.handle_signal .sigterm "  frame\n").2)
          "T1" "host" ⟨none, false⟩ .ok).trace
        = [("r@x.com", "[ALERT] Your Program is Terminated: Crashed / Terminated", body)]
      ∧ containsStr body "SIGTERM")
    ∧ ((termination_monitor.make (some "r@x.com") none none (some "s@x.com") (some "pw")
          ⟨none, none, none, none, none, none, none⟩).run
        ⟨Disposition.sigDfl, Disposition.sigDfl⟩ ⟨none, false⟩
        (.raises (termination_monitor.handle_signal .sigterm "  frame\n").2)
        "T0" "T1" "host" .ok .ok).propagated
      = some (termination_monitor.handle_signal .sigterm "  frame\n").2
    ∧ (termination_monitor.handle_signal .sigterm "  frame\n").2.excType = "SystemExit" :=
  claim5_amended
    (termination_monitor.make (some "r@x.com") none none (some "s@x.com") (some "pw")
      ⟨none, none, none, none, none, none, none⟩)
    (SimpleEmailServer.make "smtp.gmail.com" 587 "s@x.com" "pw" none none)
    rfl "  frame\n" "T0" "T1" "host" ⟨Disposition.sigDfl, Disposition.sigDfl⟩
    ⟨none, false⟩ ⟨none, false⟩ .ok .ok .ok

/-- C6: for every armed guard with a configured mailer whose block raises
`ValueError("x")`, the release step calls `Notifier.send` exactly once, with
subject "[ALERT] Your Program is Terminated: Crashed / Terminated"
(containing "Crashed") and a body containing both "ValueError" and "x" via
the formatted traceback, and the original `ValueError` propagates to the
caller unchanged. -/
theorem claim6_crash_notification (m : termination_monitor) (srv : SimpleEmailServer)
    (hm : m.mailer = some srv) (tbText startTime endTime hostname : String)
    (st : SignalState) (sockSt sockSt0 : SocketState) (t tS tE : TransportOutcome) :
    (∃ body,
      sendEvents (m.exitStep (some ⟨"ValueError", "x", tbText⟩)
          endTime hostname sockSt t).trace
        = [(m.recipient_email.getD "",
            "[ALERT] Your Program is Terminated: Crashed / Terminated", body)]
      ∧ containsStr body "ValueError" ∧ containsStr body "x")
    ∧ containsStr "[ALERT] Your Program is Terminated: Crashed / Terminated" "Crashed"
    ∧ (m.run st sockSt0 (.raises ⟨"ValueError", "x", tbText⟩)
        startTime endTime hostname tS tE).propagated
      = some ⟨"ValueError", "x", tbText⟩ := by
  refine ⟨⟨"Your program monitoring report:\n\n"
      ++ "Host Machine: " ++ hostname ++ "\n"
      ++ "Status: " ++ "Crashed / Terminated" ++ "\n"
      ++ "Time: " ++ endTime ++ "\n"
      ++ "----------------------------------------\n"
      ++ "Error Logs / Traceback:\n"
      ++ ("Traceback (most recent call last):\n" ++ tbText ++ "ValueError" ++ ": "
          ++ "x" ++ "\n") ++ "\n"
      ++ "----------------------------------------\n"
      ++ "This is an automated message from Your_Program_is_Terminated library.",
      ?_, ?_, ?_⟩, by decide, rfl⟩
  · unfold termination_monitor.exitStep termination_monitor.trigger_alert
    simp [hm, formatException]
  · refine containsStr_append_right _ (containsStr_append_right _
      (containsStr_append_right _ (containsStr_append_left _ ?_)))
    exact containsStr_append_right "\n" (containsStr_append_right "x"
      (containsStr_append_right ": " (containsStr_append_left _ (containsStr_self _))))
  · refine containsStr_append_right _ (containsStr_append_right _
      (containsStr_append_right _ (containsStr_append_left _ ?_)))
    exact containsStr_append_right "\n" (containsStr_append_left _ (containsStr_self "x"))

/-- C6 witness: the statement instantiated at a concretely configured monitor
whose block raised `ValueError("x")`, the non-degraded hypothesis discharged
by evaluation. -/
theorem claim6_witness :
    (∃ body,
      sendEvents ((termination_monitor.make (some "r@x.com") none none (some "s@x.com")
            (some "pw") ⟨none, none, none, none, none, none, none⟩).exitStep
          (some ⟨"ValueError", "x", "  frame\n"⟩) "T1" "host" ⟨none, false⟩ .ok).trace
        = [("r@x.com", "[ALERT] Your Program is Terminated: Crashed / Terminated", body)]
      ∧ containsStr body "ValueError" ∧ containsStr body "x")
    ∧ containsStr "[ALERT] Your Program is Terminated: Crashed / Terminated" "Crashed"
    ∧ ((termination_monitor.make (some "r@x.com") none none (some "s@x.com") (some "pw")
          ⟨none, none, none, none, none, none, none⟩).run
        ⟨Disposition.sigDfl, Disposition.sigDfl⟩ ⟨none, false⟩
        (.raises ⟨"ValueError", "x", "  frame\n"⟩) "T0" "T1" "host" .ok .ok).propagated
      = some ⟨"ValueError", "x", "  frame\n"⟩ :=
  claim6_crash_notification
    (termination_monitor.make (some "r@x.com") none none (some "s@x.com") (some "pw")
      ⟨none, none, none, none, none, none, none⟩)
    (SimpleEmailServer.make "smtp.gmail.com" 587 "s@x.com" "pw" none none)
    rfl "  frame\n" "T0" "T1" "host" ⟨Disposition.sigDfl, Disposition.sigDfl⟩
    ⟨none, false⟩ ⟨none, false⟩ .ok .ok .ok

/-- C7: `SimpleEmailServer.send` never raises past its boundary — for every
configuration, message and socket state, a transport failure (any exception
inside the `try` block) is caught, logged as the last action, and reported as
`false`; a successful transport reports `true`; and the outcome a full
guarded run propagates is the same whether the release-step notification
transport fails or succeeds. -/
theorem claim7_notifier_never_raises (s : SimpleEmailServer) (r subj b : String)
    (sockSt : SocketState) (err : String) (m : termination_monitor)
    (st : SignalState) (sockSt0 : SocketState) (block : BlockResult)
    (startTime endTime hostname : String) (tS : TransportOutcome) :
    (s.send r subj b sockSt (.fail err)).1 = false
    ∧ (s.send r subj b sockSt (.fail err)).2.2.getLast?
        = some (Event.log ("[TERMINATION_MONITOR] Failed to send email. Error: " ++ err))
    ∧ (s.send r subj b sockSt .ok).1 = true
    ∧ (m.run st sockSt0 block startTime endTime hostname tS (.fail err)).propagated
        = (m.run st sockSt0 block startTime endTime hostname tS .ok).propagated := by
  refine ⟨?_, ?_, ?_, ?_⟩
  · unfold SimpleEmailServer.send
    cases s.proxy_info <;> rfl
  · unfold SimpleEmailServer.send
    cases s.proxy_info <;> simp
  · unfold SimpleEmailServer.send
    cases s.proxy_info <;> by_cases h465 : s.smtp_port = 465 <;> simp [h465]
  · unfold termination_monitor.run
    cases block <;> rfl

/-- C8 counterexample: the empty string is a present explicit constructor
argument (Python `Optional[str]` distinguishes `""` from `None`), yet the
environment variable overrides it, because `__init__` combines the two with
Python `or`, which tests truthiness rather than presence. -/
theorem claim8_counterexample :
    (termination_monitor.make (some "") none none none none
        ⟨some "env-recipient@x.com", none, none, none, none, none, none⟩).recipient_email
      = some "env-recipient@x.com"
    ∧ some "env-recipient@x.com" ≠ (some "" : Option String) :=
  ⟨rfl, by decide⟩

/-- C8 (amended): recipient address, transport host, transport port, sender
identity and sender credential each resolve from the explicit constructor
argument when it is truthy (a non-empty string; a non-zero port), the
explicit argument then taking precedence over the environment variable; when
the explicit argument is absent they resolve from the environment variable,
with the host and port defaulting to "smtp.gmail.com" and 587; the proxy
URLs have no constructor argument and resolve from environment variables
only. -/
theorem claim8_amended (r h se pw : String) (p : Nat) (env : EnvConfig)
    (hr : r ≠ "") (hh : h ≠ "") (hp : p ≠ 0) (hse : se ≠ "") (hpw : pw ≠ "") :
    ((termination_monitor.make (some r) (some h) (some p) (some se) (some pw)
        env).recipient_email = some r
      ∧ (termination_monitor.make (some r) (some h) (some p) (some se) (some pw)
          env).smtp_host = h
      ∧ (termination_monitor.make (some r) (some h) (some p) (some se) (some pw)
          env).smtp_port = p
      ∧ (termination_monitor.make (some r) (some h) (some p) (some se) (some pw)
          env).sender_email = some se
      ∧ (termination_monitor.make (some r) (some h) (some p) (some se) (some pw)
          env).sender_password = some pw
      ∧ (termination_monitor.make (some r) (some h) (some p) (some se) (some pw)
          env).http_proxy = env.httpProxy
      ∧ (termination_monitor.make (some r) (some h) (some p) (some se) (some pw)
          env).https_proxy = env.httpsProxy)
    ∧ ((termination_monitor.make none none none none none env).recipient_email
        = env.recipientEmail
      ∧ (termination_monitor.make none none none none none env).smtp_host
        = env.smtpHost.getD "smtp.gmail.com"
      ∧ (termination_monitor.make none none none none none env).smtp_port
        = env.smtpPort.getD 587
      ∧ (termination_monitor.make none none none none none env).sender_email
        = env.senderEmail
      ∧ (termination_monitor.make none none none none none env).sender_password
        = env.senderPassword
      ∧ (termination_monitor.make none none none none none env).http_proxy
        = env.httpProxy
      ∧ (termination_monitor.make none none none none none env).https_proxy
        = env.httpsProxy) := by
  unfold termination_monitor.make
  refine ⟨⟨?_, ?_, ?_, ?_, ?_, rfl, rfl⟩, ⟨?_, rfl, rfl, ?_, ?_, rfl, rfl⟩⟩
    <;> simp [pyOr, pyTruthy, hr, hh, hp, hse, hpw]

/-- C8 witness: the amended statement at concrete explicit arguments and a
fully populated environment, the truthiness hypotheses discharged by
evaluation. -/
theorem claim8_witness :
    ((termination_monitor.make (some "a@b.c") (some "mail.example.com") (some 2525)
        (some "s@x.y") (some "secret")
        ⟨some "e-r@x", some "e-host", some 99, some "e-se", some "e-pw",
          some "http://p:1", some "https://p:2"⟩).recipient_email = some "a@b.c"
      ∧ (termination_monitor.make (some "a@b.c") (some "mail.example.com") (some 2525)
          (some "s@x.y") (some "secret")
          ⟨some "e-r@x", some "e-host", some 99, some "e-se", some "e-pw",
            some "http://p:1", some "https://p:2"⟩).smtp_host = "mail.example.com"
      ∧ (termination_monitor.make (some "a@b.c") (some "mail.example.com") (some 2525)
          (some "s@x.y") (some "secret")
          ⟨some "e-r@x", some "e-host", some 99, some "e-se", some "e-pw",
            some "http://p:1", some "https://p:2"⟩).smtp_port = 2525
      ∧ (termination_monitor.make (some "a@b.c") (some "mail.example.com") (some 2525)
          (some "s@x.y") (some "secret")
          ⟨some "e-r@x", some "e-host", some 99, some "e-se", some "e-pw",
            some "http://p:1", some "https://p:2"⟩).sender_email = some "s@x.y"
      ∧ (termination_monitor.make (some "a@b.c") (some "mail.example.com") (some 2525)
          (some "s@x.y") (some "secret")
          ⟨some "e-r@x", some "e-host", some 99, some "e-se", some "e-pw",
            some "http://p:1", some "https://p:2"⟩).sender_password = some "secret"
      ∧ (termination_monitor.make (some "a@b.c") (some "mail.example.com") (some 2525)
          (some "s@x.y") (some "secret")
          ⟨some "e-r@x", some "e-host", some 99, some "e-se", some "e-pw",
            some "http://p:1", some "https://p:2"⟩).http_proxy = some "http://p:1"
      ∧ (termination_monitor.make (some "a@b.c") (some "mail.example.com") (some 2525)
          (some "s@x.y") (some "secret")
          ⟨some "e-r@x", some "e-host", some 99, some "e-se", some "e-pw",
            some "http://p:1", some "https://p:2"⟩).https_proxy = some "https://p:2")
    ∧ ((termination_monitor.make none none none none none
          ⟨some "e-r@x", some "e-host", some 99, some "e-se", some "e-pw",
            some "http://p:1", some "https://p:2"⟩).recipient_email = some "e-r@x"
      ∧ (termination_monitor.make none none none none none
          ⟨some "e-r@x", some "e-host", some 99, some "e-se", some "e-pw",
            some "http://p:1", some "https://p:2"⟩).smtp_host = "e-host"
      ∧ (termination_monitor.make none none none none none
          ⟨some "e-r@x", some "e-host", some 99, some "e-se", some "e-pw",
            some "http://p:1", some "https://p:2"⟩).smtp_port = 99
      ∧ (termination_monitor.make none none none none none
          ⟨some "e-r@x", some "e-host", some 99, some "e-se", some "e-pw",
            some "http://p:1", some "https://p:2"⟩).sender_email = some "e-se"
      ∧ (termination_monitor.make none none none none none
          ⟨some "e-r@x", some "e-host", some 99, some "e-se", some "e-pw",
            some "http://p:1", some "https://p:2"⟩).sender_password = some "e-pw"
      ∧ (termination_monitor.make none none none none none
          ⟨some "e-r@x", some "e-host", some 99, some "e-se", some "e-pw",
            some "http://p:1", some "https://p:2"⟩).http_proxy = some "http://p:1"
      ∧ (termination_monitor.make none none none none none
          ⟨some "e-r@x", some "e-host", some 99, some "e-se", some "e-pw",
            some "http://p:1", some "https://p:2"⟩).https_proxy = some "https://p:2") :=
  claim8_amended "a@b.c" "mail.example.com" "s@x.y" "secret" 2525
    ⟨some "e-r@x", some "e-host", some 99, some "e-se", some "e-pw",
      some "http://p:1", some "https://p:2"⟩
    (by decide) (by decide) (by decide) (by decide) (by decide)

/-- C9: whenever a proxy is configured (`proxy_info` is set), every call to
`SimpleEmailServer.send` — succeeding or failing — first sets the
process-wide default proxy and replaces the socket factory with
`socks.socksocket` (immediately after the connecting log line and before any
SMTP connection event), and the returned global socket state still carries
both substitutions: nothing restores them, so they persist for all
subsequent socket users after the call returns. -/
theorem claim9_proxy_substitution_persists (s : SimpleEmailServer) (pi : ProxyInfo)
    (hpi : s.proxy_info = some pi) (r subj b : String) (st : SocketState)
    (t : TransportOutcome) :
    (s.send r subj b st t).2.1.socketIsSocks = true
    ∧ (s.send r subj b st t).2.1.defaultProxy
        = some ((if pi.ptype = "http" then "PROXY_TYPE_HTTP" else "PROXY_TYPE_SOCKS5"),
            pi.host, pi.port)
    ∧ ∃ rest, (s.send r subj b st t).2.2
        = Event.log ("[TERMINATION_MONITOR] Connecting to SMTP server " ++ s.smtp_host
            ++ ":" ++ toString s.smtp_port ++ "...")
          :: Event.setDefaultProxy
              (if pi.ptype = "http" then "PROXY_TYPE_HTTP" else "PROXY_TYPE_SOCKS5")
              pi.host pi.port
          :: Event.setSocketFactory :: rest := by
  unfold SimpleEmailServer.send
  rw [hpi]
  cases t <;> exact ⟨rfl, rfl, _, rfl⟩

/-- C9 witness: the statement at a concrete server whose HTTP proxy URL was
parsed at construction, with both transport outcomes represented by `ok`. -/
theorem claim9_witness :
    ((SimpleEmailServer.make "smtp.gmail.com" 587 "s@x.y" "pw"
        (some "http://proxy.example.com:3128") none).send "r@x" "subj" "body"
        ⟨none, false⟩ .ok).2.1.socketIsSocks = true
    ∧ ((SimpleEmailServer.make "smtp.gmail.com" 587 "s@x.y" "pw"
          (some "http://proxy.example.com:3128") none).send "r@x" "subj" "body"
          ⟨none, false⟩ .ok).2.1.defaultProxy
        = some ("PROXY_TYPE_HTTP", some "proxy.example.com", 3128)
    ∧ ∃ rest, ((SimpleEmailServer.make "smtp.gmail.com" 587 "s@x.y" "pw"
          (some "http://proxy.example.com:3128") none).send "r@x" "subj" "body"
          ⟨none, false⟩ .ok).2.2
        = Event.log "[TERMINATION_MONITOR] Connecting to SMTP server smtp.gmail.com:587..."
          :: Event.setDefaultProxy "PROXY_TYPE_HTTP" (some "proxy.example.com") 3128
          :: Event.setSocketFactory :: rest :=
  claim9_proxy_substitution_persists
    (SimpleEmailServer.make "smtp.gmail.com" 587 "s@x.y" "pw"
      (some "http://proxy.example.com:3128") none)
    ⟨"http", some "proxy.example.com", 3128⟩ rfl "r@x" "subj" "body" ⟨none, false⟩ .ok

/-- C10: degraded mode (`mailer = None`) is entered exactly when at least one
of the resolved sender email, sender password, or recipient email is falsy
(absent or empty); the construction-time warning is emitted exactly in the
degraded case; and the SMTP host and port receive the defaults
"smtp.gmail.com" and 587 when neither an explicit argument nor an
environment variable supplies them, so their absence never contributes to
degraded mode. -/
theorem claim10_degraded_mode (r h : Option String) (p : Option Nat)
    (se pw : Option String) (env : EnvConfig) :
    ((termination_monitor.make r h p se pw env).mailer = none
      ↔ (pyTruthy (termination_monitor.make r h p se pw env).sender_email = false
          ∨ pyTruthy (termination_monitor.make r h p se pw env).sender_password = false
          ∨ pyTruthy (termination_monitor.make r h p se pw env).recipient_email = false))
    ∧ ((termination_monitor.make r h p se pw env).warned = true
        ↔ (termination_monitor.make r h p se pw env).mailer = none)
    ∧ (h = none → env.smtpHost = none
        → (termination_monitor.make r h p se pw env).smtp_host = "smtp.gmail.com")
    ∧ (p = none → env.smtpPort = none
        → (termination_monitor.make r h p se pw env).smtp_port = 587) := by
  unfold termination_monitor.make
  refine ⟨?_, ?_, ?_, ?_⟩
  · cases h1 : pyTruthy (pyOr se env.senderEmail) <;>
      cases h2 : pyTruthy (pyOr pw env.senderPassword) <;>
        cases h3 : pyTruthy (pyOr r env.recipientEmail) <;>
          simp [h1, h2, h3]
  · simp [Option.isNone_iff_eq_none]
  · rintro rfl hh
    simp [hh]
  · rintro rfl hp
    simp [hp]

/-- C10 witness: a fully unconfigured monitor is degraded with the warning
emitted and the host/port defaults in place. -/
theorem claim10_witness :
    (termination_monitor.make none none none none none
        ⟨none, none, none, none, none, none, none⟩).mailer = none
    ∧ (termination_monitor.make none none none none none
        ⟨none, none, none, none, none, none, none⟩).warned = true
    ∧ (termination_monitor.make none none none none none
        ⟨none, none, none, none, none, none, none⟩).smtp_host = "smtp.gmail.com"
    ∧ (termination_monitor.make none none none none none
        ⟨none, none, none, none, none, none, none⟩).smtp_port = 587 := by
  have hth := claim10_degraded_mode none none none none none
    ⟨none, none, none, none, none, none, none⟩
  have hmailer := hth.1.mpr (Or.inl rfl)
  exact ⟨hmailer, hth.2.1.mpr hmailer, hth.2.2.1 rfl rfl, hth.2.2.2 rfl rfl⟩

end YPT
